import Mathlib

/-!
Verification of the EasyAds rule-processing scripts (`data/python/`).

Shallow embedding: every definition below is translated from a specific
Python function of the repository (named in its doc comment).  Network and
subprocess effects (DNS answers, WHOIS output, hash values) enter the
models as explicit function parameters; file-system effects are modelled
by an explicit state.  Machine `int` timestamps are modelled as `Nat`.
-/

namespace EasyAds

/-! ## Python string helpers -/

/-- The character class of Python's `\s` (ASCII whitespace as matched by
`re` on `str` input: space, tab, newline, carriage return, vertical tab,
form feed). -/
def pyIsSpace (c : Char) : Bool :=
  c = ' ' || c = '\t' || c = '\n' || c = '\r' || c = '\x0b' || c = '\x0c'

/-- Python `str.lower()` restricted to ASCII (rule text is ASCII). -/
def pyLower (s : String) : String :=
  String.mk (s.data.map Char.toLower)

/-- Python `str.startswith(pre)` (character-list based so that it reduces
in the kernel). -/
def pyStartsWith (s pre : String) : Bool :=
  pre.data.isPrefixOf s.data

/-- Python slicing `s[n:]`. -/
def pyDrop (s : String) (n : Nat) : String :=
  String.mk (s.data.drop n)

/-- Python `str.strip()`: remove leading and trailing whitespace. -/
def pyStrip (s : String) : String :=
  String.mk (((s.data.dropWhile pyIsSpace).reverse.dropWhile pyIsSpace).reverse)

/-- Python `str.strip(cs)`: remove leading and trailing characters drawn
from `cs`. -/
def pyStripChars (s : String) (cs : List Char) : String :=
  String.mk (((s.data.dropWhile (· ∈ cs)).reverse.dropWhile (· ∈ cs)).reverse)

/-- Splitting a character list at every occurrence of `sep`, keeping
empty segments — the semantics of Python `str.split(sep)`. -/
def splitOnChar (sep : Char) : List Char → List (List Char)
  | [] => [[]]
  | c :: rest =>
      let r := splitOnChar sep rest
      if c = sep then [] :: r
      else
        match r with
        | [] => [[c]]
        | h :: t => (c :: h) :: t

/-- Python `s.split(sep)` for a one-character separator. -/
def pySplit (s : String) (sep : Char) : List String :=
  (splitOnChar sep s.data).map String.mk

/-- Python `needle in haystack` substring containment. -/
def containsSub (needle : List Char) : List Char → Bool
  | [] => needle.isEmpty
  | c :: rest => needle.isPrefixOf (c :: rest) || containsSub needle rest

/-- Python's lexicographic string `<=` on code points (character-list
based so that it reduces in the kernel). -/
def pyLeb : List Char → List Char → Bool
  | [], _ => true
  | _ :: _, [] => false
  | x :: xs, y :: ys =>
      if x < y then true else if y < x then false else pyLeb xs ys

/-- Code-point string order: Python `a <= b` on `str`, the order used by
a plain `sorted(...)`. -/
def cpLe (a b : String) : Prop := pyLeb a.data b.data = true

/-- Case-insensitive string order: the order induced by
`sorted(..., key=lambda x: x.lower())`. -/
def ciLe (a b : String) : Prop := pyLeb (pyLower a).data (pyLower b).data = true

instance : DecidableRel cpLe := fun a b => by unfold cpLe; infer_instance

instance : DecidableRel ciLe := fun a b => by unfold ciLe; infer_instance

/-! ## File-system model for the output-writing code -/

namespace Fs

/-- A file-system state: each path maps to its content, `none` when the
file does not exist. -/
abbrev FsState := String → Option String

/-- The file operations performed by the save routines.  `openTrunc p`
is `open(p, 'w')` (create/truncate to empty), `writeAll p c` is the
`f.write(...)` call writing the whole content, `rename src dst` is
`Path.replace` (`os.replace`, an atomic rename over `dst`). -/
inductive FsOp where
  | openTrunc (p : String)
  | writeAll (p : String) (c : String)
  | rename (src dst : String)

/-- Effect of one operation on the file system. -/
def applyOp (s : FsState) : FsOp → FsState
  | .openTrunc p => fun q => if q = p then some "" else s q
  | .writeAll p c => fun q => if q = p then some c else s q
  | .rename src dst => fun q =>
      if q = dst then s src else if q = src then none else s q

/-- All states reached while executing `ops` from `s`, the initial and
final states included; an interruption mid-write leaves the file system
in one of these states. -/
def statesOf (s : FsState) : List FsOp → List FsState
  | [] => [s]
  | op :: rest => s :: statesOf (applyOp s op) rest

/-- The claim's atomicity property for the artifact at path `p`: at every
intermediate point the file holds either its previous content or the
complete new content `newC`. -/
def AtomicOn (p : String) (s0 : FsState) (ops : List FsOp) (newC : String) : Prop :=
  ∀ st ∈ statesOf s0 ops, st p = s0 p ∨ st p = some newC

end Fs

/-! ## `merge.py` — `UltimateRuleProcessor` -/

namespace Merge

/-- `conflict_resolution` configuration values of `merge.py`
(`'whitelist_priority'` / `'blacklist_priority'`). -/
inductive Policy where
  | whitelistPriority
  | blacklistPriority
deriving DecidableEq, Repr

/-- The `clean` step of `get_fingerprint` inside
`UltimateRuleProcessor._remove_duplicates`:
`re.sub(r'\s+', '', rule.lower())` — lower-case, remove all whitespace. -/
def clean (rule : String) : String :=
  String.mk ((pyLower rule).data.filter (fun c => !pyIsSpace c))

/-- `get_fingerprint` inside `_remove_duplicates`: the md5 hex digest of
`clean rule`.  The digest function `h` (md5) is a parameter; the code
only ever compares digests for equality. -/
def get_fingerprint (h : String → String) (rule : String) : String :=
  h (clean rule)

/-- `UltimateRuleProcessor._remove_duplicates`, acting on the pair
`(black_rules, white_rules)`.  Comments (`!`-lines) are dropped from both
sets; then, under `whitelist_priority`, every white rule of the form
`@@r` whose fingerprint of `r` occurs among the black fingerprints is
removed **from the white set**; under `blacklist_priority`, every black
rule whose fingerprint occurs among the `@@`-stripped white fingerprints
is removed from the black set. -/
def removeDuplicates (h : String → String) (policy : Policy)
    (black white : Finset String) : Finset String × Finset String :=
  let black1 := black.filter (fun r => pyStartsWith r "!" = false)
  let white1 := white.filter (fun r => pyStartsWith r "!" = false)
  match policy with
  | .whitelistPriority =>
      let blackFps := black1.image (get_fingerprint h)
      (black1,
       white1.filter (fun r =>
         ¬ (pyStartsWith r "@@" = true ∧ get_fingerprint h (pyDrop r 2) ∈ blackFps)))
  | .blacklistPriority =>
      let whiteFps :=
        (white1.filter (fun r => pyStartsWith r "@@" = true)).image
          (fun r => get_fingerprint h (pyDrop r 2))
      (black1.filter (fun r => get_fingerprint h r ∉ whiteFps), white1)

/-- The content preparation of `UltimateRuleProcessor._save_rules`:
`sorted(rules, key=lambda x: x.lower())` (Python's sort is stable;
`insertionSort` is the stable sort realizing it), then, when
`minify_output` is set, `!`-comment lines are dropped.  `rules` is the
rule set in its (arbitrary) Python-set iteration order. -/
def save_rules_content (minify : Bool) (rules : List String) : List String :=
  let content := rules.insertionSort ciLe
  if minify then content.filter (fun r => pyStartsWith r "!" = false) else content

/-- The file operations of `UltimateRuleProcessor._save_rules`: both
output files are opened with mode `'w'` at their final path and written
in place (no temporary file, no rename). -/
def save_rules_ops (outDir : String) (minify : Bool)
    (blackRules whiteRules : List String) : List Fs.FsOp :=
  [ .openTrunc (outDir ++ "/adblock.txt"),
    .writeAll (outDir ++ "/adblock.txt")
      (String.intercalate "\n" (save_rules_content minify blackRules)),
    .openTrunc (outDir ++ "/allow.txt"),
    .writeAll (outDir ++ "/allow.txt")
      (String.intercalate "\n" (save_rules_content minify whiteRules)) ]

/-- A Python config-dict value (`merge.py` stores booleans and the
`conflict_resolution` string). -/
inductive CfgVal where
  | bool (b : Bool)
  | str (s : String)
deriving DecidableEq, Repr

/-- A Python dict keyed by strings (association list; first hit wins). -/
abbrev Config := List (String × CfgVal)

/-- `UltimateRuleProcessor.DEFAULT_CONFIG`, exactly the six keys of the
source (note: no `keep_comments` key). -/
def DEFAULT_CONFIG : Config :=
  [("keep_hosts_syntax", .bool false),
   ("remove_duplicates", .bool true),
   ("minify_output", .bool false),
   ("validate_rules", .bool true),
   ("backup_original", .bool true),
   ("conflict_resolution", .str "whitelist_priority")]

/-- Python `cfg[key]` lookup; `none` is a `KeyError`. -/
def cfgGet (cfg : Config) (key : String) : Option CfgVal :=
  (cfg.find? (fun kv => kv.1 = key)).map Prod.snd

/-- Python truthiness of a config value. -/
def cfgTruthy : CfgVal → Bool
  | .bool b => b
  | .str s => s ≠ ""

/-- Python exceptions escaping `_process_line`. -/
inductive PyErr where
  | keyError (key : String)
deriving DecidableEq, Repr

/-- The mutable processor state: `black_rules` and `white_rules`. -/
structure ProcState where
  black : Finset String
  white : Finset String
deriving DecidableEq

/-- `target_set.add(rule)` on the set selected by `is_whitelist`. -/
def addRule (st : ProcState) (isWhitelist : Bool) (rule : String) : ProcState :=
  if isWhitelist then { st with white := insert rule st.white }
  else { st with black := insert rule st.black }

/-- First matching `(pattern, processor)` pair: a matcher returns the
processed rule text on success (`processor(match) if processor else
line`). -/
def firstMatch (pats : List (String → Option String)) (line : String) : Option String :=
  match pats with
  | [] => none
  | p :: rest =>
      match p line with
      | some r => some r
      | none => firstMatch rest line

/-- `UltimateRuleProcessor._process_line`.  The compiled pattern lists
(`self._patterns['black'] / ['white']`) are passed explicitly as
matchers.  On a comment line (`!` or `[Adblock` prefix) the code reads
`self.config['keep_comments']`, which raises `KeyError` when the key is
absent; otherwise the first matching pattern's processed text is added
to the target set, with the fall-through behaviour of the source
(unmatched whitelist lines are kept only when they start with `@@`,
unmatched blacklist lines are added verbatim). -/
def process_line (cfg : Config)
    (blackPatterns whitePatterns : List (String → Option String))
    (line : String) (isWhitelist : Bool) (st : ProcState) :
    Except PyErr ProcState :=
  let line := pyStrip line
  if line = "" then .ok st
  else if pyStartsWith line "!" || pyStartsWith line "[Adblock" then
    match cfgGet cfg "keep_comments" with
    | none => .error (.keyError "keep_comments")
    | some v => if cfgTruthy v then .ok (addRule st isWhitelist line) else .ok st
  else
    let pats := if isWhitelist then whitePatterns else blackPatterns
    match firstMatch pats line with
    | some processed => .ok (addRule st isWhitelist processed)
    | none =>
        if isWhitelist then
          if pyStartsWith line "@@" then .ok (addRule st true line) else .ok st
        else .ok (addRule st false line)

/-- The per-line loop of `_process_single_file`: an exception from
`_process_line` escapes the loop to the surrounding handler, so the rest
of the file is abandoned but the rules added so far persist. -/
def process_lines (cfg : Config)
    (blackPatterns whitePatterns : List (String → Option String))
    (isWhitelist : Bool) (st : ProcState) : List String → ProcState
  | [] => st
  | l :: ls =>
      match process_line cfg blackPatterns whitePatterns l isWhitelist st with
      | .error _ => st
      | .ok st' => process_lines cfg blackPatterns whitePatterns isWhitelist st' ls

/-- `UltimateRuleProcessor._process_single_file`: a file that cannot be
opened or read (`PermissionError`, any other exception) is logged and
skipped — the state is returned unchanged; otherwise its lines are
processed.  A file is its whitelist flag (after auto-detection) together
with its decoded lines. -/
def process_single_file (cfg : Config)
    (blackPatterns whitePatterns : List (String → Option String))
    (st : ProcState) (file : Except Unit (Bool × List String)) : ProcState :=
  match file with
  | .error _ => st
  | .ok (isWhitelist, lines) =>
      process_lines cfg blackPatterns whitePatterns isWhitelist st lines

/-- The input phase of `UltimateRuleProcessor.process_files`: every
glob-matched file is handed to `_process_single_file` in turn;
`_process_single_file` swallows all per-file exceptions, so this phase
always completes normally. -/
def process_files_input_phase (cfg : Config)
    (blackPatterns whitePatterns : List (String → Option String))
    (files : List (Except Unit (Bool × List String))) : Except PyErr ProcState :=
  .ok (files.foldl (process_single_file cfg blackPatterns whitePatterns) ⟨∅, ∅⟩)

/-- The character class `[\w.-]` of the hosts pattern in `FULL_SYNTAX`. -/
def isHostsDomainChar (c : Char) : Bool :=
  c.isAlphanum || c = '_' || c = '.' || c = '-'

/-- One alternative of the hosts pattern
`^(?:127\.0\.0\.1|0\.0\.0\.0|::)\s+([\w.-]+)`: the literal IP prefix,
one-or-more whitespace, then the maximal `[\w.-]+` token; returns
`(group(0), group(1))`. -/
def hostsAlt (alt : String) (line : String) : Option (String × String) :=
  if alt.data.isPrefixOf line.data then
    let rest := line.data.drop alt.data.length
    let ws := rest.takeWhile pyIsSpace
    if ws.isEmpty then none
    else
      let tok := (rest.drop ws.length).takeWhile isHostsDomainChar
      if tok.isEmpty then none
      else some (String.mk (alt.data ++ ws ++ tok), String.mk tok)
  else none

/-- The hosts pattern of `FULL_SYNTAX['black']`.  The three IP
alternatives start with distinct characters, so trying them in sequence
is the regex's alternation semantics.  Note the third alternative is
`::`, not `::1`. -/
def hostsRegexMatch (line : String) : Option (String × String) :=
  (hostsAlt "127.0.0.1" line).orElse fun _ =>
    (hostsAlt "0.0.0.0" line).orElse fun _ =>
      hostsAlt "::" line

/-- The processor lambda attached to the hosts pattern:
`m.group(0) if cfg['keep_hosts_syntax'] else f"||{m.group(1)}^"`. -/
def hostsProcessor (keepHosts : Bool) (m : String × String) : String :=
  if keepHosts then m.1 else "||" ++ m.2 ++ "^"

end Merge

/-! ## `filter-dns.py` — `DNSValidator` -/

namespace FilterDns

/-- The three DNS transport protocols of `filter-dns.py`
(`protocol_weights` keys: `doh`, `dot`, `udp`). -/
inductive Protocol where
  | doh
  | dot
  | udp
deriving DecidableEq, Fintype, Repr

/-- `ConfigLoader._init_dns_servers` + `DNSValidator._init_resolvers`:
the per-protocol server lists collected from `cn_servers` followed by
`intl_servers`. -/
def defaultResolvers : Protocol → List String
  | .doh =>
      ["https://dns.alidns.com/dns-query", "https://doh.pub/dns-query",
       "https://dns.twnic.tw/dns-query", "https://doh.dns.sb/dns-query",
       "https://cloudflare-dns.com/dns-query", "https://dns.google/dns-query",
       "https://doh.opendns.com/dns-query", "https://dns.quad9.net/dns-query",
       "https://dns.nextdns.io/dns-query"]
  | .dot =>
      ["tls://dns.alidns.com", "tls://dot.pub", "tls://1.1.1.1", "tls://dns.google"]
  | .udp =>
      ["223.5.5.5", "119.29.29.29", "223.6.6.6", "114.114.114.114",
       "114.114.115.115", "101.101.101.101", "185.222.222.222",
       "1.1.1.1", "8.8.8.8", "208.67.222.222", "9.9.9.9", "45.90.28.0"]

/-- The `(proto, server)` pair list built inside
`DNSValidator._fallback_query` (`for proto in ['udp', 'doh', 'dot'] ...`),
before its `random.shuffle`. -/
def resolverPairs (resolvers : Protocol → List String) : List (Protocol × String) :=
  [Protocol.udp, Protocol.doh, Protocol.dot].flatMap
    (fun p => (resolvers p).map (fun s => (p, s)))

/-- `DNSValidator.query` composed with `DNSValidator._fallback_query`.
`env p s` is the outcome of one `_doh_query`/`_dot_query`/`_udp_query`
against server `s` (an exception counts as `false`, as in the code);
`sysDns` is the outcome of the `socket.getaddrinfo` system-resolver call
in `_fallback_query`.  The shuffled iteration orders (`random.shuffle` of
the protocol list, of each server list, and of the fallback pair list)
are passed explicitly; the short-circuiting `return True` loops are
`List.any`. -/
def query (env : Protocol → String → Bool) (sysDns : Bool)
    (protoOrder : List Protocol) (serverOrder : Protocol → List String)
    (fallbackOrder : List (Protocol × String)) : Bool :=
  (protoOrder.any fun p => (serverOrder p).any (env p)) ||
    (sysDns || fallbackOrder.any fun ps => env ps.1 ps.2)

/-- The content preparation of `BlacklistProcessor._save_results`: a
plain `sorted(results)` — code-point order, not case-insensitive.
`results` is the result set in its (arbitrary) Python-set iteration
order. -/
def save_results_content (results : List String) : List String :=
  results.insertionSort cpLe

/-- The file operations of `BlacklistProcessor._save_results`: both
output files are opened with mode `'w'` at their final path and written
in place (no temporary file, no rename). -/
def save_results_ops (outAdguard outHosts : String)
    (adguard hosts : List String) : List Fs.FsOp :=
  [ .openTrunc outAdguard,
    .writeAll outAdguard (String.intercalate "\n" (save_results_content adguard)),
    .openTrunc outHosts,
    .writeAll outHosts (String.intercalate "\n" (save_results_content hosts)) ]

/-- The character class `[a-zA-Z0-9.-]` of the AdGuard patterns in
`ConfigLoader._init_regex_patterns`. -/
def isDomainChar (c : Char) : Bool :=
  c.isAlpha || c.isDigit || c = '.' || c = '-'

/-- The capture shape `[a-zA-Z0-9.-]+\.[a-zA-Z]{2,}`: the run must
contain a dot, the segment after its last dot must be two or more
letters, and something must precede that dot.  (The TLD part is
letters-only, so the separating dot of any successful split is
necessarily the last dot of the run.) -/
def domainShape (r : List Char) : Bool :=
  let revTld := r.reverse.takeWhile (fun c => c ≠ '.')
  decide (2 ≤ revTld.length) && revTld.all Char.isAlpha &&
    decide (revTld.length + 2 ≤ r.length)

/-- One AdGuard pattern `^<prefix>([a-zA-Z0-9.-]+\.[a-zA-Z]{2,})<term>`
of `ConfigLoader._init_regex_patterns`, returning the captured domain
lower-cased (`match.group(1).lower()` in `_parse_adguard`).  The
terminator characters are outside the capture class, so the capture is
exactly the maximal class run after the prefix. -/
def adguardCapture (pre : List Char) (isTerm : Char → Bool) (line : String) :
    Option String :=
  if pre.isPrefixOf line.data then
    let rest := line.data.drop pre.length
    let r := rest.takeWhile isDomainChar
    match rest.drop r.length with
    | [] => none
    | t :: _ =>
        if isTerm t && domainShape r then some (pyLower (String.mk r)) else none
  else none

/-- `RuleValidator._parse_adguard`: the four AdGuard patterns tried in
order (base rule, bare-domain rule, wildcard rule, path rule), yielding
the lower-cased domain of the first match. -/
def parse_adguard (line : String) : Option String :=
  (adguardCapture ['|', '|'] (fun c => c = '^' || c = '$') line).orElse fun _ =>
    (adguardCapture [] (fun c => c = '$') line).orElse fun _ =>
      (adguardCapture ['*', '.'] (fun c => c = '^' || c = '$') line).orElse fun _ =>
        adguardCapture ['|', '|'] (fun c => c = '/') line

/-- A maximal nonempty digit run (`\d+`). -/
def parseDigits (l : List Char) : Option (List Char × List Char) :=
  let d := l.takeWhile Char.isDigit
  if d.isEmpty then none else some (d, l.drop d.length)

/-- A maximal nonempty digit run followed by a literal dot (`\d+\.`). -/
def parseDigitsDot (l : List Char) : Option (List Char × List Char) :=
  let d := l.takeWhile Char.isDigit
  if d.isEmpty then none
  else
    match l.drop d.length with
    | '.' :: rest => some (d ++ ['.'], rest)
    | _ => none

/-- `\d+\.\d+\.\d+\.\d+` — note: any digit runs, not only null-route
addresses. -/
def parseIPv4 (l : List Char) : Option (List Char × List Char) :=
  match parseDigitsDot l with
  | none => none
  | some (a, r1) =>
      match parseDigitsDot r1 with
      | none => none
      | some (b, r2) =>
          match parseDigitsDot r2 with
          | none => none
          | some (c, r3) =>
              match parseDigits r3 with
              | none => none
              | some (d, r4) => some (a ++ b ++ c ++ d, r4)

/-- A maximal `[^\s#]+` token. -/
def tokenNoHash (l : List Char) : List Char :=
  l.takeWhile (fun c => !pyIsSpace c && c ≠ '#')

/-- The first hosts pattern `^\s*(\d+\.\d+\.\d+\.\d+)\s+([^\s#]+)`:
leading whitespace, any dotted-quad of digits, whitespace, one token. -/
def parse_hosts_std (line : String) : Option (String × String) :=
  let cs := line.data.dropWhile pyIsSpace
  match parseIPv4 cs with
  | none => none
  | some (ip, rest) =>
      let ws := rest.takeWhile pyIsSpace
      if ws.isEmpty then none
      else
        let tok := tokenNoHash (rest.drop ws.length)
        if tok.isEmpty then none else some (String.mk ip, String.mk tok)

/-- The second hosts pattern `^\s*([^\s#]+)\s+([^\s#]+)`: any two
whitespace-separated tokens — the "IP" can be anything. -/
def parse_hosts_simple (line : String) : Option (String × String) :=
  let cs := line.data.dropWhile pyIsSpace
  let t1 := tokenNoHash cs
  if t1.isEmpty then none
  else
    let rest := cs.drop t1.length
    let ws := rest.takeWhile pyIsSpace
    if ws.isEmpty then none
    else
      let t2 := tokenNoHash (rest.drop ws.length)
      if t2.isEmpty then none else some (String.mk t1, String.mk t2)

/-- `RuleValidator._parse_hosts`: first match among the two hosts
patterns; `domains = [d.lower() for d in match.group(2).split()]` — the
single captured token, lower-cased. -/
def parse_hosts (line : String) : Option (String × List String) :=
  match (parse_hosts_std line).orElse (fun _ => parse_hosts_simple line) with
  | none => none
  | some (ip, tok) => some (ip, [pyLower tok])

/-- The `exclusions` patterns `^@@`, `^#`, `^!` of
`ConfigLoader._init_regex_patterns`. -/
def matchesExclusion (line : String) : Bool :=
  pyStartsWith line "@@" || pyStartsWith line "#" || pyStartsWith line "!"

/-- `RuleValidator.validate_rule` (with `_validate_adguard` and
`_validate_hosts` inlined): exclusion patterns first, then the AdGuard
parse, then the hosts parse.  `domainValid` is `_is_domain_valid`.  The
result is `(adguard_rule, hosts_rules)`. -/
def validate_rule (domainValid : String → Bool) (rule : String) :
    Option String × Option (List String) :=
  if matchesExclusion rule then (none, none)
  else
    match parse_adguard rule with
    | some domain =>
        if domainValid domain then
          (some rule,
           if pyStartsWith domain "||" || pyStartsWith domain "*." then
             some ["0.0.0.0 " ++ domain]
           else none)
        else (none, none)
    | none =>
        match parse_hosts rule with
        | some (ip, domains) =>
            let validDomains := domains.filter domainValid
            if validDomains.isEmpty then (none, none)
            else (some (ip ++ " " ++ String.intercalate " " validDomains),
                  some (validDomains.map (fun d => ip ++ " " ++ d)))
        | none => (none, none)

/-- The `expired_keywords` list of `WHOISValidator.is_domain_expired`. -/
def expiredKeywords : List String :=
  ["expired", "expiration", "expiry", "expires on",
   "domain expired", "domain expiration", "status: expired",
   "no match", "not found", "invalid", "available",
   "redemption period", "pending delete", "clienthold"]

/-- The `status_keywords` list of `WHOISValidator.is_domain_expired`. -/
def statusKeywords : List String :=
  ["active", "ok", "registered", "valid", "paid"]

/-- `WHOISValidator.is_domain_expired`: false immediately when the
`whois` config flag is off; otherwise the lower-cased `whois` subprocess
output (`none` when the subprocess fails — the `except` path) is scanned
for expiry keywords (true), then for status keywords (false), defaulting
to false. -/
def is_domain_expired (whoisEnabled : Bool) (whoisOutput : Option String) : Bool :=
  if !whoisEnabled then false
  else
    match whoisOutput with
    | none => false
    | some out =>
        let o := pyLower out
        if expiredKeywords.any (fun k => containsSub k.data o.data) then true
        else if statusKeywords.any (fun k => containsSub k.data o.data) then false
        else false

/-- The `valid_domains` / `invalid_domains` sets of
`RuleValidator.__init__`'s cache. -/
structure VCache where
  valid : Finset String
  invalid : Finset String
deriving DecidableEq

/-- `RuleValidator._is_domain_valid`: always true when DNS validation is
disabled; cache lookup; otherwise
`self.dns.query(domain) and not self._is_domain_expired(domain)`, the
result being cached on the matching side.  `dnsq` is `DNSValidator.query`
and `whoisOutput domain` the WHOIS subprocess output for the domain. -/
def is_domain_valid (validationEnabled : Bool) (dnsq : String → Bool)
    (whoisEnabled : Bool) (whoisOutput : String → Option String)
    (cache : VCache) (domain : String) : Bool × VCache :=
  if !validationEnabled then (true, cache)
  else if domain ∈ cache.valid then (true, cache)
  else if domain ∈ cache.invalid then (false, cache)
  else
    let isValid := dnsq domain && !(is_domain_expired whoisEnabled (whoisOutput domain))
    (isValid,
     if isValid then { cache with valid := insert domain cache.valid }
     else { cache with invalid := insert domain cache.invalid })

/-- Chunking as produced by the batch loop of
`BlacklistProcessor._read_batches` (a batch is yielded as soon as it
reaches `batch_size`; a final partial batch is yielded too). -/
def chunksOf (n : Nat) (l : List String) : List (List String) :=
  match l with
  | [] => []
  | x :: xs => ((x :: xs).take (max n 1)) :: chunksOf n ((x :: xs).drop (max n 1))
termination_by l.length
decreasing_by
  simp only [List.length_drop, List.length_cons]
  omega

/-- `BlacklistProcessor._read_batches`: a missing input file
(`FileNotFoundError`) logs and calls `sys.exit(1)` — the whole run stops
with exit code 1; otherwise lines are stripped, exclusion-matching and
blank lines are dropped, and the rest is yielded in batches. -/
def read_batches (batchSize : Nat) (input : Except Unit (List String)) :
    Except Nat (List (List String)) :=
  match input with
  | .error _ => .error 1
  | .ok lines =>
      .ok (chunksOf batchSize
        ((lines.map pyStrip).filter
          (fun l => l ≠ "" && !matchesExclusion l)))

end FilterDns

/-! ## `filter-ad.py` — `RuleProcessor` -/

namespace FilterAd

/-- The character class `[a-z0-9-*]` of `RuleProcessor.rule_parser`. -/
def isRuleChar (c : Char) : Bool :=
  (decide ('a' ≤ c) && decide (c ≤ 'z')) ||
    (decide ('0' ≤ c) && decide (c ≤ '9')) || c = '-' || c = '*'

/-- The terminator class `(\^|\$|/)` of `RuleProcessor.rule_parser`. -/
def isTermChar (c : Char) : Bool :=
  c = '^' || c = '$' || c = '/'

/-- No two adjacent dots — the shape enforced by `([a-z0-9-*]+\.?)+`. -/
def noDoubleDot : List Char → Bool
  | '.' :: '.' :: _ => false
  | _ :: rest => noDoubleDot rest
  | [] => true

/-- `RuleProcessor.rule_parser.match`, the Python regex
`^(@@\|\|)?(\|\|)?([a-z0-9-*]+\.?)+(\^|\$|/)`, returning `group(0)`.

The optional prefixes may be consumed greedily without backtracking:
when they are present but the body then fails, the no-prefix
alternatives fail too, because the body class contains neither `@` nor
`|`.  The body `([a-z0-9-*]+\.?)+` followed by a terminator matches
exactly the maximal prefix run `R` of class-or-dot characters provided
`R` starts with a class character, has no two adjacent dots, and is
followed by a terminator (the terminator characters are outside the
class, so Python's backtracking cannot choose a shorter run). -/
def ruleParserMatch (s : String) : Option String :=
  let cs0 := s.data
  let p1 : List Char := if ['@', '@', '|', '|'].isPrefixOf cs0 then ['@', '@', '|', '|'] else []
  let cs1 := cs0.drop p1.length
  let p2 : List Char := if ['|', '|'].isPrefixOf cs1 then ['|', '|'] else []
  let cs2 := cs1.drop p2.length
  let r := cs2.takeWhile (fun c => isRuleChar c || c = '.')
  match r, cs2.drop r.length with
  | [], _ => none
  | _, [] => none
  | c :: _, t :: _ =>
      if isRuleChar c && noDoubleDot r && isTermChar t then
        some (String.mk (p1 ++ p2 ++ r ++ [t]))
      else none

/-- `RuleProcessor._normalize_rule`: match `rule.split('$')[0].strip()`
against `rule_parser`; on failure return `""`, otherwise take
`group(0)`, delete every `^` and `*`, strip leading/trailing `.|/`, and
lower-case. -/
def normalize_rule (rule : String) : String :=
  let head := pyStrip (String.mk (rule.data.takeWhile (fun c => c ≠ '$')))
  match ruleParserMatch head with
  | none => ""
  | some g0 =>
      pyLower (pyStripChars
        (String.mk (g0.data.filter (fun c => c ≠ '^' && c ≠ '*')))
        ['.', '|', '/'])

/-- `RuleProcessor._is_whitelisted`: exact normalized match against the
whitelist, else the subdomain check
`for i in range(1, min(5, len(parts))): '.'.join(parts[i:]) in whitelist`. -/
def is_whitelisted (wl : Finset String) (rule : String) : Bool :=
  let norm := normalize_rule rule
  if norm = "" then false
  else if norm ∈ wl then true
  else
    let parts := pySplit norm '.'
    (List.range' 1 (min 5 parts.length - 1)).any
      (fun i => String.intercalate "." (parts.drop i) ∈ wl)

/-- Modelled from the spec: the claim's whitelist match — exact match or
subdomain of an allowed domain up to a suffix depth of 3 levels
(`range(1, min(4, len(parts)))`). -/
def specWhitelistMatch3 (wl : Finset String) (rule : String) : Bool :=
  let norm := normalize_rule rule
  if norm = "" then false
  else if norm ∈ wl then true
  else
    let parts := pySplit norm '.'
    (List.range' 1 (min 4 parts.length - 1)).any
      (fun i => String.intercalate "." (parts.drop i) ∈ wl)

end FilterAd

/-! ## `dns.py` — cached `DNSValidator` -/

namespace Dns

/-- The fields of `dns.py`'s `DEFAULT_CONFIG` used by `validate_domain`.
Timestamps (`int(time.time())`) and the TTL are naturals. -/
structure Config where
  whitelist : List String
  domesticServers : List String
  overseasServers : List String
  cacheTtl : Nat

/-- One row of the `domains` cache table
(`domain, valid_domestic, valid_overseas, checked_at, expires_at`). -/
structure CacheEntry where
  validDomestic : Bool
  validOverseas : Bool
  checkedAt : Nat
  expiresAt : Nat
deriving DecidableEq, Repr

/-- The cache store keyed by domain (`domain TEXT PRIMARY KEY`). -/
abbrev Cache := String → Option CacheEntry

/-- `dns.py`'s `DEFAULT_CONFIG` (the fields `validate_domain` reads). -/
def defaultConfig : Config :=
  { whitelist := ["baidu.com", "qq.com", "taobao.com"]
    domesticServers := ["223.5.5.5", "119.29.29.29", "114.114.114.114"]
    overseasServers := ["8.8.8.8", "1.1.1.1", "9.9.9.9"]
    cacheTtl := 86400 * 7 }

/-- `DNSValidator._check_with_servers`: submit `_dig_query` per server,
return true as soon as one completed query is true (`digOk domain s` is
the outcome of `_dig_query(domain, s)`; an exception counts as false). -/
def check_with_servers (digOk : String → String → Bool) (domain : String)
    (servers : List String) : Bool :=
  servers.any (digOk domain)

/-- The fresh-check branch of `DNSValidator.validate_domain`: query the
domestic and overseas pools, `INSERT OR REPLACE` the row with
`checked_at = now` and `expires_at = now + cache_ttl`, and return
`domestic_ok or overseas_ok`. -/
def freshCheck (cfg : Config) (digOk : String → String → Bool) (now : Nat)
    (cache : Cache) (domain : String) : Bool × Cache :=
  let domesticOk := check_with_servers digOk domain cfg.domesticServers
  let overseasOk := check_with_servers digOk domain cfg.overseasServers
  let e : CacheEntry := ⟨domesticOk, overseasOk, now, now + cfg.cacheTtl⟩
  (domesticOk || overseasOk, fun d => if d = domain then some e else cache d)

/-- `DNSValidator.validate_domain`: whitelist short-circuit, then the
cache lookup `SELECT ... WHERE domain=? AND expires_at>=?` (a row whose
`expires_at` is below `now` is not returned), then the fresh check. -/
def validate_domain (cfg : Config) (digOk : String → String → Bool) (now : Nat)
    (cache : Cache) (domain : String) : Bool × Cache :=
  if domain ∈ cfg.whitelist then (true, cache)
  else
    match cache domain with
    | some e =>
        if now ≤ e.expiresAt then (e.validDomestic || e.validOverseas, cache)
        else freshCheck cfg digOk now cache domain
    | none => freshCheck cfg digOk now cache domain

/-- The write phase of `DNSValidator.process_file` in `dns.py`: write the
joined kept lines (plus a trailing newline) to the temporary path
`file.with_suffix('.tmp')`, then `tmp_file.replace(file)` — an atomic
rename over the final path. -/
def process_file_write_ops (tmp file : String) (validLines : List String) :
    List Fs.FsOp :=
  [ .openTrunc tmp,
    .writeAll tmp (String.intercalate "\n" validLines ++ "\n"),
    .rename tmp file ]

end Dns

/-! ## Shared lemmas -/

/-- Totality of the code-point comparator. -/
theorem pyLeb_total (a b : List Char) : pyLeb a b = true ∨ pyLeb b a = true := by
  induction a generalizing b with
  | nil => left; rfl
  | cons x xs ih =>
    cases b with
    | nil => right; rfl
    | cons y ys =>
      by_cases h1 : x < y
      · left; simp [pyLeb, h1]
      · by_cases h2 : y < x
        · right; simp [pyLeb, h2]
        · rcases ih ys with h | h
          · left; simp [pyLeb, h1, h2, h]
          · right; simp [pyLeb, h1, h2, h]

/-- Transitivity of the code-point comparator. -/
theorem pyLeb_trans (a b c : List Char) (hab : pyLeb a b = true)
    (hbc : pyLeb b c = true) : pyLeb a c = true := by
  induction a generalizing b c with
  | nil => rfl
  | cons x xs ih =>
    cases b with
    | nil => simp [pyLeb] at hab
    | cons y ys =>
      cases c with
      | nil => simp [pyLeb] at hbc
      | cons z zs =>
        simp only [pyLeb] at hab hbc ⊢
        by_cases hxy : x < y
        · by_cases hyz : y < z
          · simp [lt_trans hxy hyz]
          · by_cases hzy : z < y
            · simp [if_neg hyz, if_pos hzy] at hbc
            · have : y = z := le_antisymm (not_lt.mp hzy) (not_lt.mp hyz)
              subst this
              simp [hxy]
        · by_cases hyx : y < x
          · simp [if_neg hxy, if_pos hyx] at hab
          · have : x = y := le_antisymm (not_lt.mp hyx) (not_lt.mp hxy)
            subst this
            simp only [if_neg hxy, if_neg (lt_irrefl x)] at hab
            by_cases hxz : x < z
            · simp [hxz]
            · by_cases hzx : z < x
              · simp [if_neg hxz, if_pos hzx] at hbc
              · simp only [if_neg hxz, if_neg hzx] at hbc ⊢
                exact ih ys zs hab hbc

/-- Antisymmetry of the code-point comparator. -/
theorem pyLeb_antisymm (a b : List Char) (hab : pyLeb a b = true)
    (hba : pyLeb b a = true) : a = b := by
  induction a generalizing b with
  | nil => cases b with
    | nil => rfl
    | cons y ys => simp [pyLeb] at hba
  | cons x xs ih =>
    cases b with
    | nil => simp [pyLeb] at hab
    | cons y ys =>
      simp only [pyLeb] at hab hba
      by_cases hxy : x < y
      · simp [if_neg (asymm hxy), if_pos hxy] at hba
      · by_cases hyx : y < x
        · simp [if_neg hxy, if_pos hyx] at hab
        · have hx : x = y := le_antisymm (not_lt.mp hyx) (not_lt.mp hxy)
          subst hx
          simp only [if_neg hxy] at hab hba
          rw [ih ys (by simpa using hab) (by simpa using hba)]

/-- Antisymmetry of the code-point order on strings. -/
theorem cpLe_antisymm (a b : String) (hab : cpLe a b) (hba : cpLe b a) : a = b := by
  cases a; cases b
  exact congrArg String.mk (pyLeb_antisymm _ _ hab hba)

instance : IsAntisymm String cpLe := ⟨cpLe_antisymm⟩

instance : IsTotal String cpLe := ⟨fun a b => pyLeb_total a.data b.data⟩

instance : IsTrans String cpLe := ⟨fun a b c => pyLeb_trans a.data b.data c.data⟩

instance : IsTotal String ciLe :=
  ⟨fun a b => pyLeb_total (pyLower a).data (pyLower b).data⟩

instance : IsTrans String ciLe :=
  ⟨fun a b c => pyLeb_trans (pyLower a).data (pyLower b).data (pyLower c).data⟩

/-- Splitting never yields an empty segment list. -/
theorem splitOnChar_ne_nil (sep : Char) (l : List Char) : splitOnChar sep l ≠ [] := by
  cases l with
  | nil => simp [splitOnChar]
  | cons c rest =>
    simp only [splitOnChar]
    by_cases h : c = sep
    · simp [h]
    · simp only [if_neg h]
      cases splitOnChar sep rest <;> simp

/-- The initial state is among the reached states. -/
theorem Fs.self_mem_statesOf (s : Fs.FsState) (ops : List Fs.FsOp) :
    s ∈ Fs.statesOf s ops := by
  cases ops <;> simp [Fs.statesOf]

/-- States reached from the successor state are reached states. -/
theorem Fs.mem_statesOf_cons {st : Fs.FsState} (s : Fs.FsState) (op : Fs.FsOp)
    (ops : List Fs.FsOp) (h : st ∈ Fs.statesOf (Fs.applyOp s op) ops) :
    st ∈ Fs.statesOf s (op :: ops) := by
  rw [Fs.statesOf]
  exact List.mem_cons_of_mem _ h

/-! ## Claim C1 — conflict resolution under whitelist priority -/

/-- C1 counterexample.  The claim states that under the whitelist-priority
policy conflicting entries are removed from the block set and not from the
allow set.  On the concrete conflicting pair
`black = {"||ads.example.com^"}`, `white = {"@@||ads.example.com^"}`,
`_remove_duplicates` keeps the block entry and removes the allow entry —
the exact opposite. -/
theorem C1_counterexample :
    (Merge.removeDuplicates (fun s => s) .whitelistPriority
        {"||ads.example.com^"} {"@@||ads.example.com^"}).1 =
      {"||ads.example.com^"} ∧
    (Merge.removeDuplicates (fun s => s) .whitelistPriority
        {"||ads.example.com^"} {"@@||ads.example.com^"}).2 = ∅ := by
  constructor <;> decide

/-- C1 (amended): under the `whitelist_priority` policy,
`_remove_duplicates` never removes anything from the block set other than
`!`-comment lines, and it removes the conflicting entries from the **allow**
set; afterwards, for every retained allow rule `@@r`, the fingerprint of
`r` does not occur among the fingerprints of the final block set — so the
disjointness invariant `d ∈ allow ⇒ d ∉ block` (on fingerprints of
`@@`-stripped allow rules) holds, and the outcome is a function of the two
populated sets only. -/
theorem C1_conflict_resolution (h : String → String) (black white : Finset String) :
    (Merge.removeDuplicates h .whitelistPriority black white).1 =
      black.filter (fun r => pyStartsWith r "!" = false) ∧
    ∀ w ∈ (Merge.removeDuplicates h .whitelistPriority black white).2,
      pyStartsWith w "@@" = true →
      Merge.get_fingerprint h (pyDrop w 2) ∉
        ((Merge.removeDuplicates h .whitelistPriority black white).1).image
          (Merge.get_fingerprint h) := by
  refine ⟨rfl, ?_⟩
  intro w hw hat
  simp only [Merge.removeDuplicates, Finset.mem_filter] at hw ⊢
  tauto

/-- C1 witness: the amended theorem applied at the concrete conflict-free
allow rule `@@||b.com^` against block set `{"||a.com^"}`. -/
theorem C1_conflict_resolution_witness :
    "@@||b.com^" ∈ (Merge.removeDuplicates (fun s => s) .whitelistPriority
        {"||a.com^"} {"@@||b.com^"}).2 ∧
    pyStartsWith "@@||b.com^" "@@" = true ∧
    Merge.get_fingerprint (fun s => s) (pyDrop "@@||b.com^" 2) ∉
      ((Merge.removeDuplicates (fun s => s) .whitelistPriority
          {"||a.com^"} {"@@||b.com^"}).1).image (Merge.get_fingerprint (fun s => s)) :=
  ⟨by decide, by decide,
   (C1_conflict_resolution (fun s => s) {"||a.com^"} {"@@||b.com^"}).2
     "@@||b.com^" (by decide) (by decide)⟩

/-! ## Claim C2 — DNS consensus -/

/-- C2 counterexample.  The claim states that when every configured DNS
server fails for a domain, `query` returns false.  With every per-server
query failing (`env _ _ = false`) but the system-resolver call
`socket.getaddrinfo` in `_fallback_query` succeeding, `query` returns
true: the verdict is not a function of the configured servers alone. -/
theorem C2_counterexample :
    FilterDns.query (fun _ _ => false) true
      [.doh, .dot, .udp] FilterDns.defaultResolvers
      (FilterDns.resolverPairs FilterDns.defaultResolvers) = true := by
  decide

/-- C2 (amended): for every iteration order produced by the shuffles,
`query` returns true iff at least one configured server answers the
`A`-record query successfully over some protocol **or** the system
resolver (`socket.getaddrinfo` in `_fallback_query`) resolves the domain;
in particular it returns false only when every configured server and the
system resolver all fail. -/
theorem C2_query_consensus (env : FilterDns.Protocol → String → Bool)
    (sysDns : Bool) (protoOrder : List FilterDns.Protocol)
    (serverOrder : FilterDns.Protocol → List String)
    (fallbackOrder : List (FilterDns.Protocol × String))
    (hp : protoOrder.Perm [.doh, .dot, .udp])
    (hs : ∀ p, (serverOrder p).Perm (FilterDns.defaultResolvers p))
    (hf : fallbackOrder.Perm (FilterDns.resolverPairs FilterDns.defaultResolvers)) :
    (FilterDns.query env sysDns protoOrder serverOrder fallbackOrder = true) ↔
      ((∃ p s, s ∈ FilterDns.defaultResolvers p ∧ env p s = true) ∨ sysDns = true) := by
  have hmemP : ∀ p : FilterDns.Protocol, p ∈ protoOrder := by
    intro p; rw [hp.mem_iff]; cases p <;> simp
  have hmemPairs : ∀ p s, (p, s) ∈ fallbackOrder ↔ s ∈ FilterDns.defaultResolvers p := by
    intro p s
    rw [hf.mem_iff]
    simp only [FilterDns.resolverPairs, List.mem_flatMap, List.mem_map]
    constructor
    · rintro ⟨q, -, t, ht, heq⟩
      cases heq
      exact ht
    · intro hs'
      exact ⟨p, by cases p <;> simp, s, hs', rfl⟩
  simp only [FilterDns.query, Bool.or_eq_true, List.any_eq_true]
  constructor
  · rintro (⟨p, -, s, hs', he⟩ | hsys | ⟨⟨p, s⟩, hmem, he⟩)
    · exact .inl ⟨p, s, (hs p).mem_iff.mp hs', he⟩
    · exact .inr hsys
    · exact .inl ⟨p, s, (hmemPairs p s).mp hmem, he⟩
  · rintro (⟨p, s, hs', he⟩ | hsys)
    · exact .inl ⟨p, hmemP p, s, (hs p).mem_iff.mpr hs', he⟩
    · exact .inr (.inl hsys)

/-- C2 witness: the amended theorem applied at the unshuffled default
orders, with exactly the UDP server `8.8.8.8` succeeding and the system
resolver failing. -/
theorem C2_query_consensus_witness :
    (FilterDns.query (fun p s => p == FilterDns.Protocol.udp && s == "8.8.8.8") false
        [.doh, .dot, .udp] FilterDns.defaultResolvers
        (FilterDns.resolverPairs FilterDns.defaultResolvers) = true) ↔
      ((∃ p s, s ∈ FilterDns.defaultResolvers p ∧
          (p == FilterDns.Protocol.udp && s == "8.8.8.8") = true) ∨ false = true) :=
  C2_query_consensus _ _ _ _ _ (List.Perm.refl _) (fun _ => List.Perm.refl _)
    (List.Perm.refl _)

/-! ## Claim C3 — expired cache entries are never trusted -/

/-- C3: an expired cache row (`expires_at < now`) never influences the
verdict — `validate_domain` returns the same verdict as if the row were
absent; and whenever the cache is actually consulted (the domain is not
whitelisted) the whole run is identical to the absent-row run, the
expired row is overwritten by a fresh row with `checked_at = now` and
`expires_at = now + cache_ttl`, which is strictly greater than its
`checked_at` whenever the TTL is positive (the default TTL is
`86400 * 7`). -/
theorem C3_expired_cache_refreshed (cfg : Dns.Config)
    (digOk : String → String → Bool) (now : Nat) (cache : Dns.Cache)
    (domain : String) (e : Dns.CacheEntry)
    (hc : cache domain = some e) (hexp : e.expiresAt < now)
    (httl : 0 < cfg.cacheTtl) :
    ((Dns.validate_domain cfg digOk now cache domain).1 =
      (Dns.validate_domain cfg digOk now
        (fun d => if d = domain then none else cache d) domain).1) ∧
    (domain ∉ cfg.whitelist →
      (∀ d, (Dns.validate_domain cfg digOk now cache domain).2 d =
        (Dns.validate_domain cfg digOk now
          (fun d => if d = domain then none else cache d) domain).2 d) ∧
      ∃ e', (Dns.validate_domain cfg digOk now cache domain).2 domain = some e' ∧
        e'.checkedAt = now ∧ e'.expiresAt = now + cfg.cacheTtl ∧
        e'.checkedAt < e'.expiresAt) := by
  by_cases hwl : domain ∈ cfg.whitelist
  · simp [Dns.validate_domain, hwl]
  · have hnle : ¬ now ≤ e.expiresAt := by omega
    constructor
    · simp [Dns.validate_domain, hwl, hc, hnle, Dns.freshCheck]
    · intro _
      refine ⟨?_, ?_⟩
      · intro d
        by_cases hd : d = domain <;>
          simp [Dns.validate_domain, hwl, hc, hnle, Dns.freshCheck, hd]
      · have h2 : (Dns.validate_domain cfg digOk now cache domain).2 domain =
            some ⟨Dns.check_with_servers digOk domain cfg.domesticServers,
                  Dns.check_with_servers digOk domain cfg.overseasServers,
                  now, now + cfg.cacheTtl⟩ := by
          simp [Dns.validate_domain, hwl, hc, hnle, Dns.freshCheck]
        exact ⟨_, h2, rfl, rfl, by simpa using httl⟩

/-- C3 witness: the theorem applied to the default configuration, an
all-failing `dig`, `now = 100`, and a cache holding the expired row
`(true, false, 10, 50)` for `ads.test`. -/
theorem C3_expired_cache_refreshed_witness :
    ((fun d => if d = "ads.test"
        then some (⟨true, false, 10, 50⟩ : Dns.CacheEntry) else none) "ads.test" =
      some (⟨true, false, 10, 50⟩ : Dns.CacheEntry)) ∧
    (50 < 100 ∧ 0 < Dns.defaultConfig.cacheTtl) ∧
    (((Dns.validate_domain Dns.defaultConfig (fun _ _ => false) 100
        (fun d => if d = "ads.test"
          then some (⟨true, false, 10, 50⟩ : Dns.CacheEntry) else none) "ads.test").1 =
      (Dns.validate_domain Dns.defaultConfig (fun _ _ => false) 100
        (fun d => if d = "ads.test" then none else
          if d = "ads.test"
            then some (⟨true, false, 10, 50⟩ : Dns.CacheEntry) else none) "ads.test").1) ∧
    ("ads.test" ∉ Dns.defaultConfig.whitelist →
      (∀ d, (Dns.validate_domain Dns.defaultConfig (fun _ _ => false) 100
        (fun d => if d = "ads.test"
          then some (⟨true, false, 10, 50⟩ : Dns.CacheEntry) else none) "ads.test").2 d =
        (Dns.validate_domain Dns.defaultConfig (fun _ _ => false) 100
          (fun d => if d = "ads.test" then none else
            if d = "ads.test"
              then some (⟨true, false, 10, 50⟩ : Dns.CacheEntry) else none) "ads.test").2 d) ∧
      ∃ e', (Dns.validate_domain Dns.defaultConfig (fun _ _ => false) 100
          (fun d => if d = "ads.test"
            then some (⟨true, false, 10, 50⟩ : Dns.CacheEntry) else none) "ads.test").2
            "ads.test" = some e' ∧
        e'.checkedAt = 100 ∧ e'.expiresAt = 100 + Dns.defaultConfig.cacheTtl ∧
        e'.checkedAt < e'.expiresAt)) :=
  ⟨by decide, ⟨by decide, by decide⟩,
   C3_expired_cache_refreshed Dns.defaultConfig (fun _ _ => false) 100
     (fun d => if d = "ads.test"
        then some (⟨true, false, 10, 50⟩ : Dns.CacheEntry) else none) "ads.test"
     ⟨true, false, 10, 50⟩ (by decide) (by decide) (by decide)⟩

/-! ## Claim C4 — atomicity of output writes -/

/-- C4 counterexample.  The claim states that every output artifact is
written via a temporary path plus rename.  `merge.py`'s `_save_rules`
opens the final path `output/adblock.txt` directly with mode `'w'`: the
intermediate state right after the truncating `open` holds the empty
file, which is neither the previous good content `||old.example.com^`
nor the new content — an interruption there destroys the previous
output. -/
theorem C4_counterexample :
    ¬ Fs.AtomicOn "output/adblock.txt"
        (fun q => if q = "output/adblock.txt" then some "||old.example.com^" else none)
        (Merge.save_rules_ops "output" false ["||a.com^"] [])
        (String.intercalate "\n" (Merge.save_rules_content false ["||a.com^"])) := by
  intro h
  have hmem := Fs.mem_statesOf_cons
      (fun q => if q = "output/adblock.txt" then some "||old.example.com^" else none)
      (.openTrunc ("output" ++ "/adblock.txt"))
      (Merge.save_rules_ops "output" false ["||a.com^"] []).tail
      (Fs.self_mem_statesOf _ _)
  have hbad := h _ hmem
  revert hbad
  decide

/-- C4 (amended): only `dns.py`'s `process_file` writes atomically — it
writes to `file.with_suffix('.tmp')` and renames it over the final path,
so every intermediate state holds either the previous or the complete
new content of the final path; `merge.py`'s `_save_rules` and
`filter-dns.py`'s `_save_results` write the final path in place
(see the counterexample). -/
theorem C4_dns_write_atomic (tmp file : String) (validLines : List String)
    (s0 : Fs.FsState) (hneq : tmp ≠ file) :
    Fs.AtomicOn file s0 (Dns.process_file_write_ops tmp file validLines)
      (String.intercalate "\n" validLines ++ "\n") := by
  intro st hst
  simp only [Dns.process_file_write_ops, Fs.statesOf, List.mem_cons,
    List.not_mem_nil, or_false] at hst
  rcases hst with rfl | rfl | rfl | rfl
  · exact .inl rfl
  · left
    simp [Fs.applyOp, Ne.symm hneq]
  · left
    simp [Fs.applyOp, Ne.symm hneq]
  · right
    simp [Fs.applyOp, Ne.symm hneq]

/-- C4 witness: the amended theorem at the concrete pair
`x.tmp` / `x.txt` on an empty file system. -/
theorem C4_dns_write_atomic_witness :
    ("x.tmp" ≠ ("x.txt" : String)) ∧
    Fs.AtomicOn "x.txt" (fun _ => none)
      (Dns.process_file_write_ops "x.tmp" "x.txt" ["||a.com^"])
      (String.intercalate "\n" ["||a.com^"] ++ "\n") :=
  ⟨by decide,
   C4_dns_write_atomic "x.tmp" "x.txt" ["||a.com^"] (fun _ => none) (by decide)⟩

/-! ## Claim C9 — output ordering -/

/-- C9 counterexample.  The claim states that the final output files are
sorted case-insensitively.  `filter-dns.py`'s `_save_results` uses a
plain `sorted(...)` — code-point order: for the result set
`{"||B.com^", "||a.com^"}` it emits `||B.com^` before `||a.com^`
(since `B` < `a` in code points), which is not case-insensitive order. -/
theorem C9_counterexample :
    FilterDns.save_results_content ["||B.com^", "||a.com^"] =
      ["||B.com^", "||a.com^"] ∧
    ¬ List.Pairwise ciLe (FilterDns.save_results_content ["||B.com^", "||a.com^"]) := by
  constructor <;> decide

/-- C9 (amended): both writers emit one rule per line with no duplicate
lines (the emitted lines are a permutation of the rule set, so nodup is
preserved); `merge.py`'s `_save_rules` orders them case-insensitively
(with and without `minify_output`), while `filter-dns.py`'s
`_save_results` orders them in code-point (case-sensitive) order — the
latter order is additionally canonical: any iteration order of the same
result set produces the identical file. -/
theorem C9_output_sorted (blackRules results : List String) :
    List.Pairwise ciLe (Merge.save_rules_content false blackRules) ∧
    List.Pairwise ciLe (Merge.save_rules_content true blackRules) ∧
    (Merge.save_rules_content false blackRules).Perm blackRules ∧
    (blackRules.Nodup → (Merge.save_rules_content false blackRules).Nodup) ∧
    List.Pairwise cpLe (FilterDns.save_results_content results) ∧
    (FilterDns.save_results_content results).Perm results ∧
    (results.Nodup → (FilterDns.save_results_content results).Nodup) ∧
    (∀ results2, results2.Perm results →
      FilterDns.save_results_content results2 = FilterDns.save_results_content results) := by
  refine ⟨?_, ?_, ?_, ?_, ?_, ?_, ?_, ?_⟩
  · exact List.sorted_insertionSort ciLe blackRules
  · exact (List.sorted_insertionSort ciLe blackRules).sublist (List.filter_sublist _)
  · exact List.perm_insertionSort ciLe blackRules
  · exact fun h => ((List.perm_insertionSort ciLe blackRules).nodup_iff).mpr h
  · exact List.sorted_insertionSort cpLe results
  · exact List.perm_insertionSort cpLe results
  · exact fun h => ((List.perm_insertionSort cpLe results).nodup_iff).mpr h
  · intro results2 hp
    exact List.eq_of_perm_of_sorted
      ((List.perm_insertionSort cpLe results2).trans
        (hp.trans (List.perm_insertionSort cpLe results).symm))
      (List.sorted_insertionSort cpLe results2)
      (List.sorted_insertionSort cpLe results)

/-- C9 witness: nodup preservation at a concrete two-rule black set, and
canonical output at two iteration orders of a concrete result set. -/
theorem C9_output_sorted_witness :
    (["||b.com^", "||A.com^"] : List String).Nodup ∧
    (Merge.save_rules_content false ["||b.com^", "||A.com^"]).Nodup ∧
    (["||a.com^", "||B.com^"] : List String).Perm ["||B.com^", "||a.com^"] ∧
    FilterDns.save_results_content ["||a.com^", "||B.com^"] =
      FilterDns.save_results_content ["||B.com^", "||a.com^"] :=
  ⟨by decide,
   (C9_output_sorted ["||b.com^", "||A.com^"] []).2.2.2.1 (by decide),
   by decide,
   (C9_output_sorted [] ["||B.com^", "||a.com^"]).2.2.2.2.2.2.2
     ["||a.com^", "||B.com^"] (by decide)⟩

/-! ## Claim C6 — whitelist subdomain-match depth -/

/-- C6 counterexample.  The claim bounds the subdomain conflict check at
3 levels.  For whitelist `{example.com}` the rule
`||a.b.c.d.example.com^` — whose only allowed ancestor is 4 labels up —
is judged whitelisted by `_is_whitelisted`
(`range(1, min(5, len(parts)))` strips up to 4 leading labels), while
the claim's depth-3 check rejects it. -/
theorem C6_counterexample :
    FilterAd.is_whitelisted {"example.com"} "||a.b.c.d.example.com^" = true ∧
    FilterAd.specWhitelistMatch3 {"example.com"} "||a.b.c.d.example.com^" = false := by
  constructor <;> decide

/-- C6 (amended): `_is_whitelisted` reports a conflict exactly when the
rule normalizes to a non-empty form that matches an allowed domain
exactly, or is a subdomain of an allowed domain up to **4** levels
(stripping `i ∈ [1,4]` leading labels, `i` below the label count). -/
theorem C6_whitelist_depth (wl : Finset String) (rule : String) :
    FilterAd.is_whitelisted wl rule = true ↔
      (FilterAd.normalize_rule rule ≠ "" ∧
       (FilterAd.normalize_rule rule ∈ wl ∨
        ∃ i, 1 ≤ i ∧ i ≤ 4 ∧ i < (pySplit (FilterAd.normalize_rule rule) '.').length ∧
          String.intercalate "." ((pySplit (FilterAd.normalize_rule rule) '.').drop i) ∈ wl)) := by
  have hne : splitOnChar '.' (FilterAd.normalize_rule rule).data ≠ [] :=
    splitOnChar_ne_nil _ _
  have hlen : 1 ≤ (pySplit (FilterAd.normalize_rule rule) '.').length := by
    simp only [pySplit, List.length_map]
    exact List.length_pos.mpr hne
  unfold FilterAd.is_whitelisted
  by_cases h0 : FilterAd.normalize_rule rule = ""
  · simp [h0]
  · by_cases hmem : FilterAd.normalize_rule rule ∈ wl
    · simp [h0, hmem]
    · simp only [if_neg h0, if_neg hmem, List.any_eq_true, List.mem_range'_1,
        decide_eq_true_eq]
      constructor
      · rintro ⟨i, ⟨hi1, hi2⟩, hmem2⟩
        exact ⟨h0, .inr ⟨i, hi1, by omega, by omega, hmem2⟩⟩
      · rintro ⟨-, hor⟩
        rcases hor with hmem2 | ⟨i, hi1, hi2, hi3, hmem2⟩
        · exact absurd hmem2 hmem
        · exact ⟨i, ⟨hi1, by omega⟩, hmem2⟩

/-! ## Claim C5 — hosts lines and null-route IPs -/

/-- C5 counterexample.  The claim states that a hosts line whose IP is
not a null-route address produces no block rule.  `filter-dns.py`'s
hosts pattern `^\s*(\d+\.\d+\.\d+\.\d+)\s+([^\s#]+)` accepts any
dotted-quad: for `8.8.8.8 example.com` (with the domain validating)
`validate_rule` emits both an AdGuard-output rule and a hosts-output
rule, although `8.8.8.8` is none of `0.0.0.0`, `127.0.0.1`, `::1`. -/
theorem C5_counterexample :
    FilterDns.validate_rule (fun _ => true) "8.8.8.8 example.com" =
      (some "8.8.8.8 example.com", some ["8.8.8.8 example.com"]) ∧
    ("8.8.8.8" ∉ (["0.0.0.0", "127.0.0.1", "::1"] : List String)) := by
  constructor <;> decide

/-- C5 (amended): the hosts parsers do not enforce the claimed null-route
set.  `merge.py`'s hosts conversion pattern fires only for lines starting
with `127.0.0.1`, `0.0.0.0` or `::` — so `::1` lines are **not**
converted while `::` lines are — whereas `filter-dns.py`'s
`_parse_hosts` accepts any dotted-quad of digits and, via its fallback
pattern, any whitespace-separated token pair (`::1` included, but also
arbitrary text). -/
theorem C5_hosts_parsing :
    (∀ line g, Merge.hostsRegexMatch line = some g →
      (pyStartsWith line "127.0.0.1" = true ∨ pyStartsWith line "0.0.0.0" = true ∨
       pyStartsWith line "::" = true)) ∧
    Merge.hostsRegexMatch "::1 example.com" = none ∧
    Merge.hostsRegexMatch ":: example.com" = some (":: example.com", "example.com") ∧
    Merge.hostsRegexMatch "0.0.0.0 tracker.test" =
      some ("0.0.0.0 tracker.test", "tracker.test") ∧
    FilterDns.parse_hosts "::1 example.com" = some ("::1", ["example.com"]) ∧
    FilterDns.parse_hosts "anything-at-all example.com" =
      some ("anything-at-all", ["example.com"]) := by
  refine ⟨?_, by decide, by decide, by decide, by decide, by decide⟩
  intro line g hm
  unfold Merge.hostsRegexMatch Merge.hostsAlt at hm
  by_cases h1 : ("127.0.0.1" : String).data.isPrefixOf line.data = true
  · left; exact h1
  · by_cases h2 : ("0.0.0.0" : String).data.isPrefixOf line.data = true
    · right; left; exact h2
    · by_cases h3 : ("::" : String).data.isPrefixOf line.data = true
      · right; right; exact h3
      · simp [h1, h2, h3, Option.orElse] at hm

/-- C5 witness: the universal part of the amended theorem applied to the
matching line `127.0.0.1 ads.example.com`. -/
theorem C5_hosts_parsing_witness :
    pyStartsWith "127.0.0.1 ads.example.com" "127.0.0.1" = true ∨
    pyStartsWith "127.0.0.1 ads.example.com" "0.0.0.0" = true ∨
    pyStartsWith "127.0.0.1 ads.example.com" "::" = true :=
  C5_hosts_parsing.1 "127.0.0.1 ads.example.com"
    ("127.0.0.1 ads.example.com", "ads.example.com") (by decide)

/-! ## Claim C7 — comment lines under the default configuration -/

/-- C7: the code contradicts the claim (and the spec's intent) — on a
line starting with `!`, `_process_line` reads
`self.config['keep_comments']`, a key `DEFAULT_CONFIG` does not define,
so under the default configuration the line raises
`KeyError('keep_comments')` instead of being passed through or dropped;
supplying the missing key makes the same line complete normally, and a
`#` line (not special-cased at all) falls through to the verbatim
black-rule add without error. -/
theorem C7_comment_keyerror :
    Merge.process_line Merge.DEFAULT_CONFIG [] [] "! a comment" false ⟨∅, ∅⟩ =
      .error (.keyError "keep_comments") ∧
    Merge.process_line (("keep_comments", .bool true) :: Merge.DEFAULT_CONFIG)
      [] [] "! a comment" false ⟨∅, ∅⟩ =
      .ok ⟨{"! a comment"}, ∅⟩ ∧
    Merge.process_line Merge.DEFAULT_CONFIG [] [] "# a comment" false ⟨∅, ∅⟩ =
      .ok ⟨{"# a comment"}, ∅⟩ := by
  refine ⟨rfl, rfl, rfl⟩

/-! ## Claim C8 — failing input files -/

/-- C8 counterexample.  The claim states the whole run fails when all
inputs fail.  In `merge.py` every per-file exception is swallowed by
`_process_single_file`, so the input phase completes normally — with
empty rule sets — even when **every** input file is unreadable; and in
`filter-dns.py` a missing input is `sys.exit(1)` for the whole run even
though it is the first (and only) input. -/
theorem C8_counterexample :
    Merge.process_files_input_phase Merge.DEFAULT_CONFIG [] []
      [.error (), .error ()] = .ok ⟨∅, ∅⟩ ∧
    FilterDns.read_batches 10000 (.error ()) = .error 1 := by
  constructor <;> rfl

/-- Folding `_process_single_file` over the input files is the fold over
the readable files only. -/
theorem process_single_file_foldl_eq (cfg : Merge.Config)
    (bp wp : List (String → Option String))
    (files : List (Except Unit (Bool × List String))) (st : Merge.ProcState) :
    files.foldl (Merge.process_single_file cfg bp wp) st =
      (files.filterMap Except.toOption).foldl
        (fun s fl => Merge.process_lines cfg bp wp fl.1 s fl.2) st := by
  induction files generalizing st with
  | nil => rfl
  | cons f fs ih =>
    cases f with
    | error e =>
        simp only [List.foldl_cons, List.filterMap_cons, Except.toOption]
        exact ih st
    | ok v =>
        simp only [List.foldl_cons, List.filterMap_cons, Except.toOption]
        rw [ih]
        rfl

/-- C8 (amended): in `merge.py` an unreadable input file is logged and
skipped and the remaining inputs are processed — the input phase always
completes normally, equal to processing exactly the readable files; the
run does not fail even when all inputs fail (while `filter-dns.py`, with
its single input, exits the whole run when that input is missing — see
the counterexample). -/
theorem C8_input_errors_skipped (cfg : Merge.Config)
    (bp wp : List (String → Option String))
    (files : List (Except Unit (Bool × List String))) :
    Merge.process_files_input_phase cfg bp wp files =
      .ok ((files.filterMap Except.toOption).foldl
        (fun s fl => Merge.process_lines cfg bp wp fl.1 s fl.2)
        (⟨∅, ∅⟩ : Merge.ProcState)) :=
  congrArg Except.ok (process_single_file_foldl_eq cfg bp wp files ⟨∅, ∅⟩)

/-! ## Claim C10 — DNS plus WHOIS validity -/

/-- C10: for an uncached domain with validation enabled,
`_is_domain_valid` returns exactly
`dns.query(domain) and not is_domain_expired(domain)` — a resolving
domain is still rejected when the enabled WHOIS check reports it
expired — and with the WHOIS flag off the expiry check is always false,
so validity reduces to DNS resolvability. -/
theorem C10_dns_and_whois (dnsq : String → Bool) (whoisEnabled : Bool)
    (whoisOutput : String → Option String) (cache : FilterDns.VCache)
    (domain : String) (hv : domain ∉ cache.valid) (hi : domain ∉ cache.invalid) :
    ((FilterDns.is_domain_valid true dnsq whoisEnabled whoisOutput cache domain).1 =
      (dnsq domain &&
        !(FilterDns.is_domain_expired whoisEnabled (whoisOutput domain)))) ∧
    (whoisEnabled = false →
      (FilterDns.is_domain_valid true dnsq false whoisOutput cache domain).1 =
        dnsq domain) := by
  constructor
  · simp [FilterDns.is_domain_valid, hv, hi]
  · intro h
    simp [FilterDns.is_domain_valid, hv, hi, FilterDns.is_domain_expired]

/-- C10 witness: an uncached domain that resolves over DNS but whose
WHOIS output reports `EXPIRED` is judged invalid. -/
theorem C10_dns_and_whois_witness :
    ("ads.test" ∉ (⟨∅, ∅⟩ : FilterDns.VCache).valid ∧
     "ads.test" ∉ (⟨∅, ∅⟩ : FilterDns.VCache).invalid) ∧
    ((FilterDns.is_domain_valid true (fun _ => true) true
        (fun _ => some "Domain Status: EXPIRED") ⟨∅, ∅⟩ "ads.test").1 =
      ((fun (_ : String) => true) "ads.test" &&
        !(FilterDns.is_domain_expired true
            ((fun (_ : String) => some "Domain Status: EXPIRED") "ads.test")))) ∧
    (FilterDns.is_domain_valid true (fun _ => true) true
      (fun _ => some "Domain Status: EXPIRED") ⟨∅, ∅⟩ "ads.test").1 = false :=
  ⟨⟨by decide, by decide⟩,
   (C10_dns_and_whois (fun _ => true) true (fun _ => some "Domain Status: EXPIRED")
      ⟨∅, ∅⟩ "ads.test" (by decide) (by decide)).1,
   by decide⟩

end EasyAds
